import Mathlib

/-!
# Verification of the video-blur WebGL renderer core

Shallow embedding of the `WebGLRenderer` class (src/src/config/defaults.ts)
of the video-blur-react repository: the state-update fragment shader, the
blend fragment shader's passthrough and aspect-cover logic, the background
source manager (`updateBackgroundIfNeeded`), and the ping-pong buffer /
render-call state machine.

GLSL `float` arithmetic is modelled over `ℚ`; textures are modelled as
sampling functions `ℚ → ℚ → ℚ` on normalized coordinates (red channel).
-/

namespace VideoBlur

/-- GLSL `clamp(x, lo, hi) = min(max(x, lo), hi)`. -/
def clampQ (x lo hi : ℚ) : ℚ := min (max x lo) hi

/-- GLSL `smoothstep(e0, e1, x)`: `t = clamp((x-e0)/(e1-e0), 0, 1); t*t*(3-2*t)`. -/
def smoothstepQ (e0 e1 x : ℚ) : ℚ :=
  let t := clampQ ((x - e0) / (e1 - e0)) 0 1
  t * t * (3 - 2 * t)

/-- GLSL `mix(a, b, t) = a * (1 - t) + b * t`. -/
def mixQ (a b t : ℚ) : ℚ := a * (1 - t) + b * t

/-- A single-channel texture as a sampling function on normalized
texture coordinates (value of the red channel). -/
abbrev Sampler : Type := ℚ → ℚ → ℚ

/-- The shader helper `sampleBlurred(tex, coord, radius)`: 3×3
Gaussian-weighted sample (weights 1,2,1 / 2,4,2 / 1,2,1, normalized by 16)
at offsets of `radius` texels, where one texel is `1/u_resolution`. -/
def sampleBlurred (tex : Sampler) (cx cy : ℚ) (radius resX resY : ℚ) : ℚ :=
  let tsx := 1 / resX
  let tsy := 1 / resY
  let s := radius
  (tex (cx + (-s) * tsx) (cy + (-s) * tsy) * 1 +
   tex cx (cy + (-s) * tsy) * 2 +
   tex (cx + s * tsx) (cy + (-s) * tsy) * 1 +
   tex (cx + (-s) * tsx) cy * 2 +
   tex cx cy * 4 +
   tex (cx + s * tsx) cy * 2 +
   tex (cx + (-s) * tsx) (cy + s * tsy) * 1 +
   tex cx (cy + s * tsy) * 2 +
   tex (cx + s * tsx) (cy + s * tsy) * 1) / 16

/-- Uniforms of the state-update fragment shader. -/
structure StateUpdateConfig where
  smoothingFactor : ℚ
  smoothstepMin : ℚ
  smoothstepMax : ℚ
  selfieModel : Bool
  resolutionX : ℚ
  resolutionY : ℚ
  stateBlurRadius : ℚ
deriving DecidableEq

/-- Per-pixel semantics of `stateUpdateFragmentShaderSource` (`main()`):
polarity inversion, foreground pinning with confidence inversion,
non-linear confidence, spatially blurred previous state, asymmetric
stickiness, and the final blend written to `gl_FragColor.r`. -/
def stateUpdatePixel (cfg : StateUpdateConfig)
    (category confidence prevState : Sampler) (x y : ℚ) : ℚ :=
  let prevCoordX := x
  let prevCoordY := 1 - y
  let categoryValue := category x y
  let confidenceValue := confidence x y
  let categoryValue := if cfg.selfieModel then 1 - categoryValue else categoryValue
  let confidenceValue := if cfg.selfieModel then 1 - confidenceValue else confidenceValue
  let confidenceValue := if categoryValue > 0 then 1 - confidenceValue else confidenceValue
  let categoryValue := if categoryValue > 0 then 1 else categoryValue
  let nonLinearConfidence := smoothstepQ cfg.smoothstepMin cfg.smoothstepMax confidenceValue
  let prevCategoryValue :=
    sampleBlurred prevState prevCoordX prevCoordY cfg.stateBlurRadius cfg.resolutionX cfg.resolutionY
  let alpha := cfg.smoothingFactor * nonLinearConfidence
  let alpha :=
    if categoryValue < 1/2 ∧ prevCategoryValue > 3/10 then
      alpha * mixQ (7/10) (1/4) (smoothstepQ (3/10) (8/10) prevCategoryValue)
    else alpha
  alpha * categoryValue + (1 - alpha) * prevCategoryValue

/-! ## Specification-side decomposition of the state-update pass (for C1) -/

/-- Spec: raw category after optional polarity inversion and foreground
pinning (category > 0 is pinned to 1). -/
def specCategory (selfie : Bool) (c : ℚ) : ℚ :=
  let c1 := if selfie then 1 - c else c
  if c1 > 0 then 1 else c1

/-- Spec: raw confidence after optional polarity inversion and, when the
(possibly inverted) category is positive, replacement by `1 - confidence`. -/
def specConfidence (selfie : Bool) (c v : ℚ) : ℚ :=
  let c1 := if selfie then 1 - c else c
  let v1 := if selfie then 1 - v else v
  if c1 > 0 then 1 - v1 else v1

/-- Spec: the blurred previous mask consumed by the state-update pass:
the 3×3 Gaussian-weighted average (weights 4/2/1, normalized by 16) of the
previous smoothed mask at offsets of `stateBlurRadius` texels, sampled at
the y-flipped coordinate the shader uses for its feedback texture. -/
def blurredPrevious (cfg : StateUpdateConfig) (prevState : Sampler) (x y : ℚ) : ℚ :=
  sampleBlurred prevState x (1 - y) cfg.stateBlurRadius cfg.resolutionX cfg.resolutionY

/-- Spec: the blend factor before the asymmetric-stickiness adjustment,
`alpha = smoothing * smoothstep(smoothstepMin, smoothstepMax, confidence)`. -/
def specAlphaBase (cfg : StateUpdateConfig) (c v : ℚ) : ℚ :=
  cfg.smoothingFactor *
    smoothstepQ cfg.smoothstepMin cfg.smoothstepMax (specConfidence cfg.selfieModel c v)

/-- Spec: the blend factor after the asymmetric-stickiness adjustment:
when category < 0.5 and the blurred previous mask exceeds 0.3, the base
alpha is multiplied by `mix(0.7, 0.25, smoothstep(0.3, 0.8, blurredPrev))`. -/
def specAlphaSticky (cfg : StateUpdateConfig) (c v p : ℚ) : ℚ :=
  if specCategory cfg.selfieModel c < 1/2 ∧ p > 3/10 then
    specAlphaBase cfg c v * mixQ (7/10) (1/4) (smoothstepQ (3/10) (8/10) p)
  else specAlphaBase cfg c v

/-- Spec: the new mask value with the stickiness-adjusted alpha. -/
def specNewMaskValue (cfg : StateUpdateConfig) (c v p : ℚ) : ℚ :=
  specAlphaSticky cfg c v p * specCategory cfg.selfieModel c +
    (1 - specAlphaSticky cfg c v p) * p

/-- Claim C1 as literally stated: the blend uses the PRE-stickiness alpha
for every pixel. -/
def specClaimedMaskValueC1 (cfg : StateUpdateConfig) (c v p : ℚ) : ℚ :=
  specAlphaBase cfg c v * specCategory cfg.selfieModel c +
    (1 - specAlphaBase cfg c v) * p

/-- The default configuration of the repository
(smoothing 0.7, smoothstepMin 0.25, smoothstepMax 0.85, stateBlurRadius 6),
polarity flag unset, at a small 4×4 resolution. -/
def cfgDefault : StateUpdateConfig :=
  { smoothingFactor := 7/10
    smoothstepMin := 1/4
    smoothstepMax := 17/20
    selfieModel := false
    resolutionX := 4
    resolutionY := 4
    stateBlurRadius := 6 }

/-- Shared decomposition lemma: the per-pixel shader value factored through
the named specification components. Both directions of the development use
this to reason about the state-update pass. -/
lemma stateUpdatePixel_decomp (cfg : StateUpdateConfig)
    (category confidence prevState : Sampler) (x y : ℚ) :
    stateUpdatePixel cfg category confidence prevState x y =
      specNewMaskValue cfg (category x y) (confidence x y)
        (blurredPrevious cfg prevState x y) := by
  simp only [stateUpdatePixel, specNewMaskValue, specAlphaSticky, specAlphaBase,
    specCategory, specConfidence, blurredPrevious]

/-- C1 counterexample: at category 0, confidence 1, previous mask
uniformly 0.5 under the default configuration, the value the shader writes
(7761/25000 = 0.31044) differs from the claimed formula with the
pre-stickiness alpha ((1 - 0.7) * 0.5 = 0.15): the stickiness adjustment
does enter the written blend. -/
theorem stateUpdate_claimC1_false :
    stateUpdatePixel cfgDefault (fun _ _ => 0) (fun _ _ => 1) (fun _ _ => 1/2) (1/2) (1/2) ≠
      specClaimedMaskValueC1 cfgDefault 0 1
        (blurredPrevious cfgDefault (fun _ _ => 1/2) (1/2) (1/2)) := by
  norm_num [stateUpdatePixel, specClaimedMaskValueC1, specAlphaBase, specConfidence,
    specCategory, blurredPrevious, sampleBlurred, smoothstepQ, clampQ, mixQ, cfgDefault]

/-- C1 (amended): for every pixel of every state-update pass, the value
written to the write mask buffer equals `alpha * category +
(1 - alpha) * blurredPrevious`, where category and confidence are first
inverted when the polarity flag is set, then category > 0 is pinned to 1
with confidence replaced by `1 - confidence`, blurredPrevious is the 3×3
Gaussian-weighted average of the previous smoothed mask at offsets of
stateBlurRadius texels, and alpha is
`smoothing * smoothstep(smoothstepMin, smoothstepMax, confidence)`
multiplied, when category < 0.5 and blurredPrevious > 0.3, by
`mix(0.7, 0.25, smoothstep(0.3, 0.8, blurredPrevious))`. -/
theorem stateUpdate_blend_formula (cfg : StateUpdateConfig)
    (category confidence prevState : Sampler) (x y : ℚ) :
    stateUpdatePixel cfg category confidence prevState x y =
      specNewMaskValue cfg (category x y) (confidence x y)
        (blurredPrevious cfg prevState x y) :=
  stateUpdatePixel_decomp cfg category confidence prevState x y

/-! ## Range lemmas for the shader arithmetic -/

lemma clampQ01_nonneg (x : ℚ) : 0 ≤ clampQ x 0 1 :=
  le_min (le_max_right x 0) zero_le_one

lemma clampQ01_le_one (x : ℚ) : clampQ x 0 1 ≤ 1 :=
  min_le_right _ _

lemma smoothstepQ_nonneg (e0 e1 x : ℚ) : 0 ≤ smoothstepQ e0 e1 x := by
  have h0 := clampQ01_nonneg ((x - e0) / (e1 - e0))
  have h1 := clampQ01_le_one ((x - e0) / (e1 - e0))
  simp only [smoothstepQ]
  nlinarith [h0, h1]

lemma smoothstepQ_le_one (e0 e1 x : ℚ) : smoothstepQ e0 e1 x ≤ 1 := by
  have h0 := clampQ01_nonneg ((x - e0) / (e1 - e0))
  have h1 := clampQ01_le_one ((x - e0) / (e1 - e0))
  simp only [smoothstepQ]
  nlinarith [sq_nonneg (1 - clampQ ((x - e0) / (e1 - e0)) 0 1), h0, h1]

lemma mixQ_stick_nonneg (t : ℚ) (h0 : 0 ≤ t) (h1 : t ≤ 1) :
    0 ≤ mixQ (7/10) (1/4) t := by
  simp only [mixQ]; nlinarith

lemma mixQ_stick_le_one (t : ℚ) (h0 : 0 ≤ t) (h1 : t ≤ 1) :
    mixQ (7/10) (1/4) t ≤ 1 := by
  simp only [mixQ]; nlinarith

lemma sampleBlurred_mem (tex : Sampler)
    (h : ∀ a b, 0 ≤ tex a b ∧ tex a b ≤ 1) (cx cy radius resX resY : ℚ) :
    0 ≤ sampleBlurred tex cx cy radius resX resY ∧
      sampleBlurred tex cx cy radius resX resY ≤ 1 := by
  simp only [sampleBlurred]
  obtain ⟨a1, b1⟩ := h (cx + -radius * (1 / resX)) (cy + -radius * (1 / resY))
  obtain ⟨a2, b2⟩ := h cx (cy + -radius * (1 / resY))
  obtain ⟨a3, b3⟩ := h (cx + radius * (1 / resX)) (cy + -radius * (1 / resY))
  obtain ⟨a4, b4⟩ := h (cx + -radius * (1 / resX)) cy
  obtain ⟨a5, b5⟩ := h cx cy
  obtain ⟨a6, b6⟩ := h (cx + radius * (1 / resX)) cy
  obtain ⟨a7, b7⟩ := h (cx + -radius * (1 / resX)) (cy + radius * (1 / resY))
  obtain ⟨a8, b8⟩ := h cx (cy + radius * (1 / resY))
  obtain ⟨a9, b9⟩ := h (cx + radius * (1 / resX)) (cy + radius * (1 / resY))
  constructor <;> [linarith; linarith]

lemma blend_mem (alpha c p : ℚ) (ha0 : 0 ≤ alpha) (ha1 : alpha ≤ 1)
    (hc0 : 0 ≤ c) (hc1 : c ≤ 1) (hp0 : 0 ≤ p) (hp1 : p ≤ 1) :
    0 ≤ alpha * c + (1 - alpha) * p ∧ alpha * c + (1 - alpha) * p ≤ 1 := by
  constructor <;> nlinarith

lemma blurredPrevious_mem (cfg : StateUpdateConfig) (prevState : Sampler)
    (h : ∀ a b, 0 ≤ prevState a b ∧ prevState a b ≤ 1) (x y : ℚ) :
    0 ≤ blurredPrevious cfg prevState x y ∧ blurredPrevious cfg prevState x y ≤ 1 :=
  sampleBlurred_mem prevState h x (1 - y) cfg.stateBlurRadius cfg.resolutionX cfg.resolutionY

lemma specCategory_mem (selfie : Bool) (c : ℚ) (h0 : 0 ≤ c) (h1 : c ≤ 1) :
    0 ≤ specCategory selfie c ∧ specCategory selfie c ≤ 1 := by
  simp only [specCategory]
  split_ifs <;> constructor <;> linarith

lemma specAlphaSticky_mem (cfg : StateUpdateConfig) (c v p : ℚ)
    (hsm0 : 0 ≤ cfg.smoothingFactor) (hsm1 : cfg.smoothingFactor ≤ 1) :
    0 ≤ specAlphaSticky cfg c v p ∧ specAlphaSticky cfg c v p ≤ 1 := by
  have hss0 := smoothstepQ_nonneg cfg.smoothstepMin cfg.smoothstepMax
    (specConfidence cfg.selfieModel c v)
  have hss1 := smoothstepQ_le_one cfg.smoothstepMin cfg.smoothstepMax
    (specConfidence cfg.selfieModel c v)
  have hst0 := smoothstepQ_nonneg (3/10) (8/10) p
  have hst1 := smoothstepQ_le_one (3/10) (8/10) p
  have hmx0 := mixQ_stick_nonneg _ hst0 hst1
  have hmx1 := mixQ_stick_le_one _ hst0 hst1
  have hb0 : 0 ≤ specAlphaBase cfg c v := by
    simp only [specAlphaBase]; exact mul_nonneg hsm0 hss0
  have hb1 : specAlphaBase cfg c v ≤ 1 := by
    simp only [specAlphaBase]; nlinarith
  simp only [specAlphaSticky]
  split_ifs
  · exact ⟨mul_nonneg hb0 hmx0, by nlinarith⟩
  · exact ⟨hb0, hb1⟩

/-- A configuration with an out-of-range smoothing factor (2), the other
fields as in the default configuration. -/
def cfgOverdrive : StateUpdateConfig :=
  { cfgDefault with smoothingFactor := 2 }

/-- C4 counterexample: with an extreme smoothing factor of 2 and in-range
inputs (category 1, confidence 0, previous mask 0), the shader computes
`alpha = 2` and writes the value 2, outside [0, 1]: the shader arithmetic
itself does not stay in range for every configuration value set. -/
theorem stateUpdate_range_claimC4_false :
    stateUpdatePixel cfgOverdrive (fun _ _ => 1) (fun _ _ => 0) (fun _ _ => 0) (1/2) (1/2)
        = 2 ∧
      ¬ stateUpdatePixel cfgOverdrive (fun _ _ => 1) (fun _ _ => 0) (fun _ _ => 0) (1/2) (1/2)
        ≤ 1 := by
  norm_num [stateUpdatePixel, sampleBlurred, smoothstepQ, clampQ, mixQ, cfgOverdrive, cfgDefault]

/-- C4 (amended): for every configuration whose smoothing factor lies in
[0, 1] (smoothstepMin, smoothstepMax and stateBlurRadius still arbitrary,
including extreme values) and every pixel, the smoothed mask value produced
by one state-update pass lies within [0, 1], given that the input category,
confidence and previous-mask values lie within [0, 1]. -/
theorem stateUpdate_range (cfg : StateUpdateConfig)
    (category confidence prevState : Sampler)
    (hsm0 : 0 ≤ cfg.smoothingFactor) (hsm1 : cfg.smoothingFactor ≤ 1)
    (hcat : ∀ a b, 0 ≤ category a b ∧ category a b ≤ 1)
    (hconf : ∀ a b, 0 ≤ confidence a b ∧ confidence a b ≤ 1)
    (hprev : ∀ a b, 0 ≤ prevState a b ∧ prevState a b ≤ 1)
    (x y : ℚ) :
    0 ≤ stateUpdatePixel cfg category confidence prevState x y ∧
      stateUpdatePixel cfg category confidence prevState x y ≤ 1 := by
  obtain ⟨hc0, hc1⟩ := hcat x y
  obtain ⟨hp0, hp1⟩ := blurredPrevious_mem cfg prevState hprev x y
  obtain ⟨hC0, hC1⟩ := specCategory_mem cfg.selfieModel (category x y) hc0 hc1
  obtain ⟨hA0, hA1⟩ :=
    specAlphaSticky_mem cfg (category x y) (confidence x y)
      (blurredPrevious cfg prevState x y) hsm0 hsm1
  rw [stateUpdatePixel_decomp]
  exact blend_mem _ _ _ hA0 hA1 hC0 hC1 hp0 hp1

/-- C4 witness: the range theorem applied at the default configuration and
uniform half-intensity inputs. -/
theorem stateUpdate_range_witness :
    0 ≤ stateUpdatePixel cfgDefault (fun _ _ => 1/2) (fun _ _ => 1/2) (fun _ _ => 1/2)
        (1/2) (1/2) ∧
      stateUpdatePixel cfgDefault (fun _ _ => 1/2) (fun _ _ => 1/2) (fun _ _ => 1/2)
        (1/2) (1/2) ≤ 1 :=
  stateUpdate_range cfgDefault _ _ _ (by norm_num [cfgDefault]) (by norm_num [cfgDefault])
    (fun _ _ => by norm_num) (fun _ _ => by norm_num) (fun _ _ => by norm_num) (1/2) (1/2)

/-! ## Iterated state updates on a spatially uniform pixel (C5) -/

lemma sampleBlurred_const (c cx cy r rx ry : ℚ) :
    sampleBlurred (fun _ _ => c) cx cy r rx ry = c := by
  simp only [sampleBlurred]
  ring

/-- The smoothed mask of one pixel across repeated state-update passes fed
with constant category and confidence values, starting from the
all-background initial state 0 (a spatially uniform field, so the feedback
blur is the identity). -/
def maskIter (cfg : StateUpdateConfig) (catV confV : ℚ) : ℕ → ℚ
  | 0 => 0
  | n + 1 =>
      stateUpdatePixel cfg (fun _ _ => catV) (fun _ _ => confV)
        (fun _ _ => maskIter cfg catV confV n) (1/2) (1/2)

lemma maskIter_one_one (n : ℕ) : maskIter cfgDefault 1 1 n = 0 := by
  induction n with
  | zero => rfl
  | succ n ih =>
      simp only [maskIter, ih]
      norm_num [stateUpdatePixel, sampleBlurred_const, smoothstepQ, clampQ, mixQ, cfgDefault]

/-- C5 counterexample: feeding category 1 and confidence 1 for 30 passes
under the defaults leaves the mask at 0 (the foreground branch replaces
confidence by 1 - confidence, so full confidence yields alpha 0): the mask
neither approaches 1 nor exceeds 0.95. -/
theorem roundTrip_claimC5_false :
    maskIter cfgDefault 1 1 30 = 0 ∧ ¬ (19/20 : ℚ) < maskIter cfgDefault 1 1 30 := by
  have h := maskIter_one_one 30
  exact ⟨h, by rw [h]; norm_num⟩

lemma maskIter_step_fg (p : ℚ) :
    stateUpdatePixel cfgDefault (fun _ _ => 1) (fun _ _ => 0) (fun _ _ => p) (1/2) (1/2) =
      7/10 + 3/10 * p := by
  norm_num [stateUpdatePixel, sampleBlurred_const, smoothstepQ, clampQ, mixQ, cfgDefault]

lemma maskIter_closed_form (n : ℕ) : maskIter cfgDefault 1 0 n = 1 - (3/10) ^ n := by
  induction n with
  | zero => simp [maskIter]
  | succ n ih =>
      simp only [maskIter, maskIter_step_fg, ih]
      ring

/-- C5 (amended): with category 1 and CONFIDENCE 0 held (the value that the
foreground branch of the shader turns into full alpha weight - the claimed
confidence 1 instead freezes the mask) under smoothing 0.7,
smoothstepMin 0.25, smoothstepMax 0.85 and polarity unset, the mask value
after n passes is 1 - 0.3^n: it increases strictly monotonically toward
1.0 and exceeds 0.95 within the 30 passes (already at pass 3). -/
theorem roundTrip_foreground_converges :
    (∀ n, maskIter cfgDefault 1 0 n = 1 - (3/10) ^ n) ∧
    (∀ n, maskIter cfgDefault 1 0 n < maskIter cfgDefault 1 0 (n + 1)) ∧
    (∀ n, maskIter cfgDefault 1 0 n < 1) ∧
    (19/20 : ℚ) < maskIter cfgDefault 1 0 3 ∧
    (19/20 : ℚ) < maskIter cfgDefault 1 0 30 := by
  have hpow : ∀ n : ℕ, (0 : ℚ) < (3/10) ^ n := fun n => pow_pos (by norm_num) n
  refine ⟨maskIter_closed_form, fun n => ?_, fun n => ?_, ?_, ?_⟩
  · rw [maskIter_closed_form, maskIter_closed_form, pow_succ]
    nlinarith [hpow n]
  · rw [maskIter_closed_form]
    linarith [hpow n]
  · rw [maskIter_closed_form]
    norm_num
  · rw [maskIter_closed_form]
    norm_num

/-! ## Asymmetric stickiness dynamics (C2) -/

/-- A configuration with smoothing factor `a` and a smoothstep window
[0, 1]; full-confidence input then makes the base blend factor exactly
`a`, isolating the stickiness adjustment. -/
def cfgUnitWindow (a : ℚ) : StateUpdateConfig :=
  { smoothingFactor := a
    smoothstepMin := 0
    smoothstepMax := 1
    selfieModel := false
    resolutionX := 4
    resolutionY := 4
    stateBlurRadius := 6 }

/-- One state-update step of a uniform pixel currently classified
background (category 0) with base blend factor `a`, from previous mask
value `p`: the person-to-background direction. -/
def slowNext (a p : ℚ) : ℚ :=
  stateUpdatePixel (cfgUnitWindow a) (fun _ _ => 0) (fun _ _ => 1) (fun _ _ => p) (1/2) (1/2)

/-- One state-update step of a uniform pixel currently classified
foreground (category 1) with base blend factor `a`, from previous mask
value `p`: the background-to-person direction. -/
def fastNext (a p : ℚ) : ℚ :=
  stateUpdatePixel (cfgUnitWindow a) (fun _ _ => 1) (fun _ _ => 0) (fun _ _ => p) (1/2) (1/2)

lemma slowNext_eq (a p : ℚ) :
    slowNext a p =
      (1 - (if 3/10 < p then a * mixQ (7/10) (1/4) (smoothstepQ (3/10) (8/10) p) else a))
        * p := by
  simp only [slowNext, stateUpdatePixel, sampleBlurred_const, cfgUnitWindow]
  norm_num [smoothstepQ, clampQ, mixQ]

lemma fastNext_eq (a p : ℚ) : fastNext a p = a + (1 - a) * p := by
  simp only [fastNext, stateUpdatePixel, sampleBlurred_const, cfgUnitWindow]
  norm_num [smoothstepQ, clampQ, mixQ]

/-- C2 (amended): the stickiness multiplier is applied exactly as claimed
(alpha is multiplied by `mix(0.7, 0.25, smoothstep(0.3, 0.8, p))` when
category < 0.5 and the blurred previous mask p exceeds 0.3), and at every
pair of mirrored mask states (slow sequence at p, fast sequence at 1 - p)
with matched base alpha `a`, the per-step mask change of the
person-to-background step is at most that of the background-to-person
step. The claimed per-trajectory version (at EVERY step after the
transition) fails - see the counterexample. -/
theorem stickiness_slows_person_to_background (a p : ℚ)
    (ha0 : 0 ≤ a) (ha1 : a ≤ 1) (hp0 : 0 ≤ p) (hp1 : p ≤ 1) :
    (3/10 < p →
      slowNext a p = (1 - a * mixQ (7/10) (1/4) (smoothstepQ (3/10) (8/10) p)) * p) ∧
    |slowNext a p - p| ≤ |fastNext a (1 - p) - (1 - p)| := by
  have hst0 := smoothstepQ_nonneg (3/10) (8/10) p
  have hst1 := smoothstepQ_le_one (3/10) (8/10) p
  have hmx0 := mixQ_stick_nonneg _ hst0 hst1
  have hmx1 := mixQ_stick_le_one _ hst0 hst1
  constructor
  · intro h
    rw [slowNext_eq, if_pos h]
  · rw [slowNext_eq, fastNext_eq]
    have hfast : a + (1 - a) * (1 - p) - (1 - p) = a * p := by ring
    rw [hfast, abs_of_nonneg (mul_nonneg ha0 hp0)]
    split_ifs with h
    · have hδ : (1 - a * mixQ (7/10) (1/4) (smoothstepQ (3/10) (8/10) p)) * p - p =
          -(a * mixQ (7/10) (1/4) (smoothstepQ (3/10) (8/10) p) * p) := by ring
      rw [hδ, abs_neg, abs_of_nonneg (mul_nonneg (mul_nonneg ha0 hmx0) hp0)]
      nlinarith [mul_nonneg (mul_nonneg ha0 hp0)
        (sub_nonneg.mpr hmx1)]
    · have hδ : (1 - a) * p - p = -(a * p) := by ring
      rw [hδ, abs_neg, abs_of_nonneg (mul_nonneg ha0 hp0)]

/-- C2 witness: the amended stickiness theorem applied at base alpha 0.7
and mirrored mask states 0.5. -/
theorem stickiness_witness :
    ((3:ℚ)/10 < 1/2 →
      slowNext (7/10) (1/2) =
        (1 - (7/10) * mixQ (7/10) (1/4) (smoothstepQ (3/10) (8/10) (1/2))) * (1/2)) ∧
    |slowNext (7/10) (1/2) - 1/2| ≤ |fastNext (7/10) (1 - 1/2) - (1 - 1/2)| :=
  stickiness_slows_person_to_background (7/10) (1/2)
    (by norm_num) (by norm_num) (by norm_num) (by norm_num)

/-- The person-to-background trajectory: mask starts at 1 (full person),
category 0 fed with base alpha 0.7 every step. -/
def slowTraj : ℕ → ℚ
  | 0 => 1
  | n + 1 => slowNext (7/10) (slowTraj n)

/-- The background-to-person trajectory: mask starts at 0, category 1 fed
with base alpha 0.7 every step. -/
def fastTraj : ℕ → ℚ
  | 0 => 0
  | n + 1 => fastNext (7/10) (fastTraj n)

/-- C2 counterexample: at the third step after the transition, the
person-to-background change (about 0.150) EXCEEDS the background-to-person
change (0.063), because the fast direction has nearly converged: the
claimed at-every-step inequality between the two trajectories is false. -/
theorem stickiness_claimC2_false :
    ¬ |slowTraj 3 - slowTraj 2| ≤ |fastTraj 3 - fastTraj 2| := by
  have hs1 : slowTraj 1 = 33/40 := by
    norm_num [slowTraj, slowNext_eq, smoothstepQ, clampQ, mixQ]
  have hs2 : slowTraj 2 = 1089/1600 := by
    norm_num [slowTraj, hs1, slowNext_eq, smoothstepQ, clampQ, mixQ]
  have hs3 : slowTraj 3 = 43473982365297/81920000000000 := by
    norm_num [slowTraj, hs2, slowNext_eq, smoothstepQ, clampQ, mixQ]
  have hf2 : fastTraj 2 = 91/100 := by
    norm_num [fastTraj, fastNext_eq]
  have hf3 : fastTraj 3 = 973/1000 := by
    norm_num [fastTraj, hf2, fastNext_eq]
  rw [hs2, hs3, hf2, hf3,
    show (43473982365297/81920000000000 : ℚ) - 1089/1600 =
      -(12282817634703/81920000000000) by norm_num,
    show (973/1000 : ℚ) - 91/100 = 63/1000 by norm_num, abs_neg,
    abs_of_nonneg (by norm_num : (0:ℚ) ≤ 12282817634703/81920000000000),
    abs_of_nonneg (by norm_num : (0:ℚ) ≤ 63/1000)]
  norm_num

/-! ## The blend fragment shader (C3, C9) -/

/-- An RGBA color as a function from channel index to value. -/
abbrev Vec4 : Type := Fin 4 → ℚ

/-- GLSL componentwise `mix` on vec4. -/
def mix4 (a b : Vec4) (t : ℚ) : Vec4 := fun i => mixQ (a i) (b i) t

/-- Uniforms of the blend fragment shader. -/
structure BlendConfig where
  bgImageW : ℚ
  bgImageH : ℚ
  canvasW : ℚ
  canvasH : ℚ
  borderSmooth : ℚ
  bgBlur : ℚ
  bgBlurRadius : ℚ
  enabled : Bool
  blendSpatialBlur : ℚ
  vbgSmoothstepMin : ℚ
  vbgSmoothstepMax : ℚ

/-- The aspect-correcting cover mapping of the virtual-background branch of
the blend shader: compares the canvas aspect ratio with the background
aspect ratio and maps the canvas texture coordinate into the background
texture, cropping the longer axis. -/
def bgCoverCoord (canvasW canvasH bgW bgH x y : ℚ) : ℚ × ℚ :=
  let canvasAspect := canvasW / canvasH
  let bgAspect := bgW / bgH
  if canvasAspect < bgAspect then
    let scaleX := bgAspect / canvasAspect
    let offsetX := (1 - scaleX) / 2
    ((x - offsetX) / scaleX, y)
  else
    let scaleY := canvasAspect / bgAspect
    let offsetY := (1 - scaleY) / 2
    (x, (y - offsetY) / scaleY)

/-- Per-pixel semantics of `blendFragmentShaderSource` (`main()`). The
multi-angle radial Gaussian frame blur (`blurColor`, which evaluates float
cosine, sine and exponential on the GPU) is taken as an explicit function
parameter; it is only consulted in the background-blur branch. When
`u_enabled == 0` the shader returns the frame sample before touching the
mask, the background, or the radial blur. -/
def blendPixel (cfg : BlendConfig) (frame : ℚ → ℚ → Vec4) (currentState : Sampler)
    (background : ℚ → ℚ → Vec4) (blurColor : ℚ → ℚ → ℚ → ℚ → Vec4) (x y : ℚ) : Vec4 :=
  if cfg.enabled = false then frame x y
  else
    let catX := x
    let catY := 1 - y
    if cfg.bgBlur > 0 ∧ cfg.bgBlurRadius > 0 then
      let categoryValue :=
        sampleBlurred currentState catX catY cfg.blendSpatialBlur cfg.canvasW cfg.canvasH
      let softMask :=
        smoothstepQ (0 + cfg.borderSmooth * (3/10)) (1 - cfg.borderSmooth * (3/10)) categoryValue
      let blurred := blurColor cfg.bgBlur cfg.bgBlurRadius x y
      let sharp := frame x y
      mix4 blurred sharp softMask
    else
      let categoryValue :=
        sampleBlurred currentState catX catY cfg.blendSpatialBlur cfg.canvasW cfg.canvasH
      let softMask := smoothstepQ cfg.vbgSmoothstepMin cfg.vbgSmoothstepMax categoryValue
      let bgTexCoord := bgCoverCoord cfg.canvasW cfg.canvasH cfg.bgImageW cfg.bgImageH x y
      let bgColor := background bgTexCoord.1 bgTexCoord.2
      let fgColor := frame x y
      mix4 bgColor fgColor softMask

/-- C9: in virtual-background mode, for all positive canvas and background
dimensions and every canvas coordinate in the unit square, the cover
mapping lands inside the unit square of the background texture, and the
canvas center maps exactly to the background center. -/
theorem bgCover_within_unit_and_centered (cw ch bw bh x y : ℚ)
    (hcw : 0 < cw) (hch : 0 < ch) (hbw : 0 < bw) (hbh : 0 < bh)
    (hx0 : 0 ≤ x) (hx1 : x ≤ 1) (hy0 : 0 ≤ y) (hy1 : y ≤ 1) :
    (0 ≤ (bgCoverCoord cw ch bw bh x y).1 ∧ (bgCoverCoord cw ch bw bh x y).1 ≤ 1 ∧
     0 ≤ (bgCoverCoord cw ch bw bh x y).2 ∧ (bgCoverCoord cw ch bw bh x y).2 ≤ 1) ∧
    bgCoverCoord cw ch bw bh (1/2) (1/2) = (1/2, 1/2) := by
  have hca : 0 < cw / ch := div_pos hcw hch
  have hba : 0 < bw / bh := div_pos hbw hbh
  simp only [bgCoverCoord]
  split_ifs with h
  · have hs1 : 1 < (bw / bh) / (cw / ch) := (one_lt_div hca).mpr h
    have hs0 : 0 < (bw / bh) / (cw / ch) := by linarith
    refine ⟨⟨?_, ?_, hy0, hy1⟩, ?_⟩
    · rw [div_nonneg_iff]
      left
      constructor <;> linarith
    · rw [div_le_one hs0]
      linarith
    · have hc : ((1:ℚ)/2 - (1 - (bw / bh) / (cw / ch)) / 2) / ((bw / bh) / (cw / ch)) = 1/2 := by
        field_simp
        ring
      rw [hc]
  · have hs1 : 1 ≤ (cw / ch) / (bw / bh) := (one_le_div hba).mpr (le_of_not_lt h)
    have hs0 : 0 < (cw / ch) / (bw / bh) := by linarith
    refine ⟨⟨hx0, hx1, ?_, ?_⟩, ?_⟩
    · rw [div_nonneg_iff]
      left
      constructor <;> linarith
    · rw [div_le_one hs0]
      linarith
    · have hc : ((1:ℚ)/2 - (1 - (cw / ch) / (bw / bh)) / 2) / ((cw / ch) / (bw / bh)) = 1/2 := by
        field_simp
        ring
      rw [hc]

/-- C9 witness: a 16:9 background composited into a 4:3 canvas, sampled at
the canvas center. -/
theorem bgCover_witness :
    (0 ≤ (bgCoverCoord 4 3 16 9 (1/2) (1/2)).1 ∧ (bgCoverCoord 4 3 16 9 (1/2) (1/2)).1 ≤ 1 ∧
     0 ≤ (bgCoverCoord 4 3 16 9 (1/2) (1/2)).2 ∧ (bgCoverCoord 4 3 16 9 (1/2) (1/2)).2 ≤ 1) ∧
    bgCoverCoord 4 3 16 9 (1/2) (1/2) = (1/2, 1/2) :=
  bgCover_within_unit_and_centered 4 3 16 9 (1/2) (1/2)
    (by norm_num) (by norm_num) (by norm_num) (by norm_num)
    (by norm_num) (by norm_num) (by norm_num) (by norm_num)

/-! ## Background source manager (C7, C10) -/

/-- A background source request as delivered to the renderer: a type tag
string (the code recognizes "image" and "video"), a source URL used as the
identity, and the media pixel dimensions (for an image source). -/
structure BgSrc where
  type : String
  url : String
  mediaW : ℕ
  mediaH : ℕ
deriving DecidableEq

/-- The background render info variants held by the renderer. -/
inductive BgInfo where
  | image (url : String) (w h : ℕ)
  | video (url : String) (canvasW canvasH : ℕ)
  | color (r g b a : ℕ)
deriving DecidableEq

/-- `DEFAULT_BG_COLOR` of the renderer. -/
def defaultBgInfo : BgInfo := BgInfo.color 33 150 243 255

/-- The identity string synthesized for the default color background. -/
def defaultBgIdentifier : String := "color(33,150,243,255)"

/-- The background-related state of the renderer, with counters for
`createTexture` (uploads) and `deleteTexture` calls. -/
structure BgState where
  active : Option String
  info : Option BgInfo
  created : ℕ
  deleted : ℕ
deriving DecidableEq

/-- The identity computed at the top of `updateBackgroundIfNeeded`: the
source URL, or the synthesized color key when no source is given. -/
def bgIdentifier : Option BgSrc → String
  | none => defaultBgIdentifier
  | some src => src.url

/-- Semantics of `WebGLRenderer.updateBackgroundIfNeeded`: cache-hit early
return when the identity matches and an info is present; otherwise delete
the previous texture, record the new identity, construct the new info
(default 1×1 color texture when no source; image or video texture by type
tag; nothing for an unrecognized tag), and fall back to the default color
texture whenever the info is still absent. -/
def updateBackgroundIfNeeded (s : BgState) (src : Option BgSrc) : BgState :=
  let newIdentifier := bgIdentifier src
  if s.active = some newIdentifier ∧ s.info.isSome then s
  else
    let s1 :=
      match s.info with
      | some _ => { s with info := none, deleted := s.deleted + 1 }
      | none => s
    let s2 := { s1 with active := some newIdentifier }
    let s3 :=
      match src with
      | none =>
          { s2 with info := some defaultBgInfo, created := s2.created + 1,
                    active := some defaultBgIdentifier }
      | some sr =>
          if sr.type = "image" then
            { s2 with info := some (BgInfo.image sr.url sr.mediaW sr.mediaH),
                      created := s2.created + 1 }
          else if sr.type = "video" then
            { s2 with info := some (BgInfo.video sr.url 1 1),
                      created := s2.created + 1 }
          else s2
    match s3.info with
    | none =>
        { s3 with info := some defaultBgInfo, created := s3.created + 1,
                  active := some defaultBgIdentifier }
    | some _ => s3

/-- A source whose type tag the construction switch recognizes (or the
absent source, for which the default color is constructed directly). -/
def bgSrcRecognized : Option BgSrc → Prop
  | none => True
  | some sr => sr.type = "image" ∨ sr.type = "video"

instance (src : Option BgSrc) : Decidable (bgSrcRecognized src) := by
  cases src with
  | none => exact isTrue trivial
  | some sr => exact inferInstanceAs (Decidable (_ ∨ _))

/-- The info constructed for a recognized (or absent) source. -/
def bgConstructedInfo : Option BgSrc → BgInfo
  | none => defaultBgInfo
  | some sr =>
      if sr.type = "image" then BgInfo.image sr.url sr.mediaW sr.mediaH
      else BgInfo.video sr.url 1 1

lemma updateBackground_hit (s : BgState) (src : Option BgSrc)
    (hid : s.active = some (bgIdentifier src)) (hinfo : s.info.isSome = true) :
    updateBackgroundIfNeeded s src = s := by
  simp only [updateBackgroundIfNeeded]
  rw [if_pos ⟨hid, hinfo⟩]

lemma updateBackground_miss (s : BgState) (src : Option BgSrc)
    (hrec : bgSrcRecognized src)
    (hmiss : ¬ (s.active = some (bgIdentifier src) ∧ s.info.isSome = true)) :
    updateBackgroundIfNeeded s src =
      { active := some (bgIdentifier src)
        info := some (bgConstructedInfo src)
        created := s.created + 1
        deleted := s.deleted + (if s.info.isSome then 1 else 0) } := by
  simp only [updateBackgroundIfNeeded]
  rw [if_neg hmiss]
  cases src with
  | none => cases hs : s.info <;> simp [bgConstructedInfo, bgIdentifier, hs]
  | some sr =>
      by_cases himg : sr.type = "image"
      · cases hs : s.info <;> simp [bgConstructedInfo, bgIdentifier, himg, hs]
      · have hvid : sr.type = "video" := by
          rcases hrec with h | h
          · exact absurd h himg
          · exact h
        cases hs : s.info <;> simp [bgConstructedInfo, bgIdentifier, himg, hvid, hs]

/-- C7: a background request whose identity equals the active identity,
with a background render info present, is a no-op (no texture created or
deleted, the info unchanged); and for any recognized source (or the absent
source) whose identity is not yet active, two consecutive identical
requests perform exactly one texture upload and the second request leaves
the state untouched. -/
theorem updateBackground_idempotent (s : BgState) (src : Option BgSrc)
    (hrec : bgSrcRecognized src) :
    (s.active = some (bgIdentifier src) → s.info.isSome →
      updateBackgroundIfNeeded s src = s) ∧
    (s.active ≠ some (bgIdentifier src) →
      (updateBackgroundIfNeeded (updateBackgroundIfNeeded s src) src).created
          = s.created + 1 ∧
        updateBackgroundIfNeeded (updateBackgroundIfNeeded s src) src
          = updateBackgroundIfNeeded s src) := by
  constructor
  · intro hid hinfo
    exact updateBackground_hit s src hid hinfo
  · intro hmiss
    have h1 := updateBackground_miss s src hrec (fun hc => hmiss hc.1)
    have h2 : updateBackgroundIfNeeded (updateBackgroundIfNeeded s src) src
        = updateBackgroundIfNeeded s src := by
      apply updateBackground_hit
      · rw [h1]
      · rw [h1]
        rfl
    exact ⟨by rw [h2, h1], h2⟩

/-- C7 witness: requesting the same image identity twice from a fresh
state uploads exactly once and the second call is a no-op. -/
theorem updateBackground_idempotent_witness :
    ((⟨none, none, 0, 0⟩ : BgState).active
        = some (bgIdentifier (some ⟨"image", "bg.png", 16, 9⟩)) →
      (⟨none, none, 0, 0⟩ : BgState).info.isSome →
      updateBackgroundIfNeeded ⟨none, none, 0, 0⟩ (some ⟨"image", "bg.png", 16, 9⟩)
        = ⟨none, none, 0, 0⟩) ∧
    ((⟨none, none, 0, 0⟩ : BgState).active
        ≠ some (bgIdentifier (some ⟨"image", "bg.png", 16, 9⟩)) →
      (updateBackgroundIfNeeded
          (updateBackgroundIfNeeded ⟨none, none, 0, 0⟩ (some ⟨"image", "bg.png", 16, 9⟩))
          (some ⟨"image", "bg.png", 16, 9⟩)).created
          = (⟨none, none, 0, 0⟩ : BgState).created + 1 ∧
        updateBackgroundIfNeeded
          (updateBackgroundIfNeeded ⟨none, none, 0, 0⟩ (some ⟨"image", "bg.png", 16, 9⟩))
          (some ⟨"image", "bg.png", 16, 9⟩)
          = updateBackgroundIfNeeded ⟨none, none, 0, 0⟩
              (some ⟨"image", "bg.png", 16, 9⟩)) :=
  updateBackground_idempotent ⟨none, none, 0, 0⟩ (some ⟨"image", "bg.png", 16, 9⟩)
    (Or.inl rfl)

/-- C10: every background update terminates with a non-null background
render info, and a request that the construction switch cannot handle (an
unrecognized type tag), or an absent source, starting with nothing cached,
ends with the default solid-color info. -/
theorem updateBackground_never_null (s : BgState) (src : Option BgSrc) :
    ((updateBackgroundIfNeeded s src).info.isSome = true) ∧
    (s.info = none → ¬ bgSrcRecognized src →
      (updateBackgroundIfNeeded s src).info = some defaultBgInfo) ∧
    (s.info = none → src = none →
      (updateBackgroundIfNeeded s src).info = some defaultBgInfo) := by
  refine ⟨?_, ?_, ?_⟩
  · simp only [updateBackgroundIfNeeded]
    split_ifs with h
    · exact h.2
    · cases src with
      | none => cases hs : s.info <;> simp [hs]
      | some sr =>
          by_cases himg : sr.type = "image"
          · cases hs : s.info <;> simp [himg, hs]
          · by_cases hvid : sr.type = "video"
            · cases hs : s.info <;> simp [himg, hvid, hs]
            · cases hs : s.info <;> simp [himg, hvid, hs]
  · intro hnone hrec
    cases src with
    | none => exact absurd trivial hrec
    | some sr =>
        have himg : ¬ sr.type = "image" := fun h => hrec (Or.inl h)
        have hvid : ¬ sr.type = "video" := fun h => hrec (Or.inr h)
        simp only [updateBackgroundIfNeeded]
        rw [if_neg (by simp [hnone])]
        simp [hnone, himg, hvid]
  · intro hnone hsrc
    subst hsrc
    simp only [updateBackgroundIfNeeded]
    rw [if_neg (by simp [hnone])]

/-- C10 witness: an unrecognized type tag on a fresh state falls back to
the default solid color, and infos are never null. -/
theorem updateBackground_never_null_witness :
    ((updateBackgroundIfNeeded ⟨none, none, 0, 0⟩
        (some ⟨"gradient", "g", 0, 0⟩)).info.isSome = true) ∧
    ((⟨none, none, 0, 0⟩ : BgState).info = none →
      ¬ bgSrcRecognized (some ⟨"gradient", "g", 0, 0⟩) →
      (updateBackgroundIfNeeded ⟨none, none, 0, 0⟩
        (some ⟨"gradient", "g", 0, 0⟩)).info = some defaultBgInfo) ∧
    ((⟨none, none, 0, 0⟩ : BgState).info = none →
      some ⟨"gradient", "g", 0, 0⟩ = (none : Option BgSrc) →
      (updateBackgroundIfNeeded ⟨none, none, 0, 0⟩
        (some ⟨"gradient", "g", 0, 0⟩)).info = some defaultBgInfo) :=
  updateBackground_never_null ⟨none, none, 0, 0⟩ (some ⟨"gradient", "g", 0, 0⟩)

/-! ## The render-call orchestrator (C3, C6, C8) -/

/-- One stored state texture: its allocation dimensions and its content as
a normalized-coordinate sampler of the red channel. -/
structure MaskTex where
  w : ℕ
  h : ℕ
  data : Sampler

/-- The mutable state of a `WebGLRenderer` instance relevant to the
render-call orchestration. -/
structure RState where
  running : Bool
  currentStateIndex : Fin 2
  canvasW : ℕ
  canvasH : ℕ
  stateTex : Fin 2 → MaskTex
  bg : BgState

/-- The options record passed to `WebGLRenderer.render`. -/
structure RenderOpts where
  smoothing : ℚ
  smoothstepMin : ℚ
  smoothstepMax : ℚ
  backgroundSource : Option BgSrc
  borderSmooth : ℚ
  bgBlur : ℚ
  bgBlurRadius : ℚ
  stateBlurRadius : ℚ
  blendSpatialBlurBlur : ℚ
  blendSpatialBlurVbg : ℚ
  vbgSmoothstepMin : ℚ
  vbgSmoothstepMax : ℚ

/-- The 1×1 all-background texture the constructor uploads into each
ping-pong buffer (pixel [0,0,0,255]: red channel 0). -/
def initialMaskTex : MaskTex := ⟨1, 1, fun _ _ => 0⟩

/-- Renderer state right after the constructor. -/
def initialRState (canvasW canvasH : ℕ) : RState :=
  ⟨true, 0, canvasW, canvasH, fun _ => initialMaskTex, ⟨none, none, 0, 0⟩⟩

/-- The read index of a render call: `this.currentStateIndex`. -/
def readIdx (s : RState) : Fin 2 := s.currentStateIndex

/-- The write index of a render call: `(this.currentStateIndex + 1) % 2`. -/
def writeIdx (s : RState) : Fin 2 := s.currentStateIndex + 1

/-- The state-update shader uniforms assembled by `render`. -/
def stateUpdateCfg (opts : RenderOpts) (selfie : Bool) (w h : ℕ) : StateUpdateConfig :=
  ⟨opts.smoothing, opts.smoothstepMin, opts.smoothstepMax, selfie, w, h, opts.stateBlurRadius⟩

/-- The background dimensions fed to the blend shader, per info variant
(the video variant reports its decode canvas dimensions; the color variant
keeps the initialized 1×1). -/
def bgDims : BgInfo → ℕ × ℕ
  | BgInfo.image _ w h => (w, h)
  | BgInfo.video _ w h => (w, h)
  | BgInfo.color _ _ _ _ => (1, 1)

/-- The result of one render call: the successor renderer state and the
image drawn to the canvas (none when the call returns before drawing). -/
structure RenderResult where
  state : RState
  output : Option (ℚ → ℚ → Vec4)

/-- Semantics of `WebGLRenderer.render`. Early return when closed; canvas
resize to the frame dimensions; without a mask texture pair, a single
blend draw with `u_enabled = 0` (passthrough); otherwise background
update, the state-update pass into the write buffer (reallocated at the
frame resolution), the blend pass reading the freshly written mask, and
the ping-pong index swap. The frame content, the background texture
content and the radial-blur evaluation are environment parameters. -/
def render (s : RState) (frame : ℚ → ℚ → Vec4) (bgContent : ℚ → ℚ → Vec4)
    (blurColor : ℚ → ℚ → ℚ → ℚ → Vec4) (frameW frameH : ℕ) (opts : RenderOpts)
    (masks : Option (Sampler × Sampler)) (useSelfieModel : Bool) : RenderResult :=
  if s.running = false then ⟨s, none⟩
  else
    let s0 := { s with canvasW := frameW, canvasH := frameH }
    match masks with
    | none =>
        let cfg : BlendConfig :=
          ⟨1, 1, frameW, frameH, opts.borderSmooth, opts.bgBlur, opts.bgBlurRadius,
            false, opts.blendSpatialBlurVbg, opts.vbgSmoothstepMin, opts.vbgSmoothstepMax⟩
        ⟨s0, some (fun x y =>
          blendPixel cfg frame (s0.stateTex s0.currentStateIndex).data bgContent blurColor x y)⟩
    | some (cat, conf) =>
        let s1 := { s0 with bg := updateBackgroundIfNeeded s0.bg opts.backgroundSource }
        let cfgS := stateUpdateCfg opts useSelfieModel frameW frameH
        let prevData := (s1.stateTex (readIdx s1)).data
        let newTex : MaskTex :=
          ⟨frameW, frameH, fun x y => stateUpdatePixel cfgS cat conf prevData x y⟩
        let s2 := { s1 with stateTex := Function.update s1.stateTex (writeIdx s1) newTex }
        let dims := match s2.bg.info with | some i => bgDims i | none => (1, 1)
        let cfgB : BlendConfig :=
          ⟨(if 0 < dims.1 then (dims.1 : ℚ) else 1), (if 0 < dims.2 then (dims.2 : ℚ) else 1),
            frameW, frameH, opts.borderSmooth, opts.bgBlur, opts.bgBlurRadius, true,
            (if opts.bgBlur > 0 ∧ opts.bgBlurRadius > 0 then opts.blendSpatialBlurBlur
              else opts.blendSpatialBlurVbg),
            opts.vbgSmoothstepMin, opts.vbgSmoothstepMax⟩
        ⟨{ s2 with currentStateIndex := writeIdx s1 },
          some (fun x y => blendPixel cfgB frame newTex.data bgContent blurColor x y)⟩

/-- Semantics of `WebGLRenderer.close`: idempotent teardown; the ping-pong
index is not touched. -/
def closeRenderer (s : RState) : RState :=
  if s.running = false then s
  else
    { s with running := false
             bg := ⟨none, none, s.bg.created,
               s.bg.deleted + (if s.bg.info.isSome then 1 else 0)⟩ }

/-- C3: with `u_enabled = 0` the blend shader returns the frame sample at
the same coordinate for every mask sampler, background content and
radial-blur evaluation (so neither is consulted), and a render call
without a mask texture pair draws exactly the input frame. -/
theorem passthrough_identity :
    (∀ (cfg : BlendConfig) (frame : ℚ → ℚ → Vec4) (mask : Sampler)
       (bg : ℚ → ℚ → Vec4) (blurC : ℚ → ℚ → ℚ → ℚ → Vec4) (x y : ℚ),
      cfg.enabled = false → blendPixel cfg frame mask bg blurC x y = frame x y) ∧
    (∀ (s : RState) (frame bgContent : ℚ → ℚ → Vec4)
       (blurC : ℚ → ℚ → ℚ → ℚ → Vec4) (w h : ℕ) (opts : RenderOpts) (selfie : Bool),
      s.running = true →
      (render s frame bgContent blurC w h opts none selfie).output = some frame) := by
  constructor
  · intro cfg frame mask bg blurC x y h
    simp [blendPixel, h]
  · intro s frame bgContent blurC w h opts selfie hrun
    simp only [render, hrun]
    norm_num
    funext x y
    simp [blendPixel]

/-- C3 witness: the passthrough theorem applied to a constant white frame
on a fresh renderer, and to the disabled blend configuration directly. -/
theorem passthrough_identity_witness :
    blendPixel ⟨1, 1, 4, 4, 0, 0, 0, false, 0, 0, 0⟩ (fun _ _ _ => 1) (fun _ _ => 0)
        (fun _ _ _ => 0) (fun _ _ _ _ _ => 0) (1/2) (1/2)
      = (fun (_ _ : ℚ) (_ : Fin 4) => (1:ℚ)) (1/2) (1/2) ∧
    (render (initialRState 4 4) (fun _ _ _ => 1) (fun _ _ _ => 0) (fun _ _ _ _ _ => 0)
        4 4 ⟨7/10, 1/4, 17/20, none, 6/10, 0, 30, 6, 8, 14, 2/5, 3/5⟩ none false).output
      = some (fun _ _ _ => 1) :=
  ⟨passthrough_identity.1 ⟨1, 1, 4, 4, 0, 0, 0, false, 0, 0, 0⟩ (fun _ _ _ => 1)
      (fun _ _ => 0) (fun _ _ _ => 0) (fun _ _ _ _ _ => 0) (1/2) (1/2) rfl,
    passthrough_identity.2 (initialRState 4 4) (fun _ _ _ => 1) (fun _ _ _ => 0)
      (fun _ _ _ _ _ => 0) 4 4 ⟨7/10, 1/4, 17/20, none, 6/10, 0, 30, 6, 8, 14, 2/5, 3/5⟩
      false rfl⟩

/-- C6: the read and write ping-pong indices differ in every renderer
state; a render call that runs the state-update pass advances the current
index exactly once (to the former write index); a passthrough render call,
a render call on a closed renderer, and close itself leave the index
unchanged. -/
theorem pingpong_never_aliased (s : RState) (frame bgContent : ℚ → ℚ → Vec4)
    (blurC : ℚ → ℚ → ℚ → ℚ → Vec4) (frameW frameH : ℕ) (opts : RenderOpts)
    (cat conf : Sampler) (masks : Option (Sampler × Sampler)) (selfie : Bool) :
    (readIdx s ≠ writeIdx s) ∧
    (s.running = true →
      (render s frame bgContent blurC frameW frameH opts (some (cat, conf))
          selfie).state.currentStateIndex = writeIdx s) ∧
    ((render s frame bgContent blurC frameW frameH opts none
        selfie).state.currentStateIndex = s.currentStateIndex) ∧
    (s.running = false →
      (render s frame bgContent blurC frameW frameH opts masks selfie).state = s) ∧
    ((closeRenderer s).currentStateIndex = s.currentStateIndex) := by
  have hne : ∀ i : Fin 2, i ≠ i + 1 := by decide
  refine ⟨hne s.currentStateIndex, ?_, ?_, ?_, ?_⟩
  · intro hrun
    simp [render, hrun, writeIdx]
  · by_cases hrun : s.running = true
    · simp [render, hrun]
    · simp [render, eq_false_of_ne_true hrun]
  · intro hnot
    simp [render, hnot]
  · simp only [closeRenderer]
    split_ifs <;> rfl

/-- C6 witness: the ping-pong theorem applied to the fresh renderer and
concrete call arguments. -/
theorem pingpong_never_aliased_witness :
    (readIdx (initialRState 4 4) ≠ writeIdx (initialRState 4 4)) ∧
    ((initialRState 4 4).running = true →
      (render (initialRState 4 4) (fun _ _ _ => 1) (fun _ _ _ => 0) (fun _ _ _ _ _ => 0)
          4 4 ⟨7/10, 1/4, 17/20, none, 6/10, 0, 30, 6, 8, 14, 2/5, 3/5⟩
          (some (fun _ _ => 1, fun _ _ => 0)) false).state.currentStateIndex
        = writeIdx (initialRState 4 4)) ∧
    ((render (initialRState 4 4) (fun _ _ _ => 1) (fun _ _ _ => 0) (fun _ _ _ _ _ => 0)
        4 4 ⟨7/10, 1/4, 17/20, none, 6/10, 0, 30, 6, 8, 14, 2/5, 3/5⟩ none
        false).state.currentStateIndex = (initialRState 4 4).currentStateIndex) ∧
    ((initialRState 4 4).running = false →
      (render (initialRState 4 4) (fun _ _ _ => 1) (fun _ _ _ => 0) (fun _ _ _ _ _ => 0)
          4 4 ⟨7/10, 1/4, 17/20, none, 6/10, 0, 30, 6, 8, 14, 2/5, 3/5⟩ none false).state
        = initialRState 4 4) ∧
    ((closeRenderer (initialRState 4 4)).currentStateIndex
      = (initialRState 4 4).currentStateIndex) :=
  pingpong_never_aliased (initialRState 4 4) (fun _ _ _ => 1) (fun _ _ _ => 0)
    (fun _ _ _ _ _ => 0) 4 4 ⟨7/10, 1/4, 17/20, none, 6/10, 0, 30, 6, 8, 14, 2/5, 3/5⟩
    (fun _ _ => 1) (fun _ _ => 0) none false

/-! ## Mask buffer lifecycle across render calls (C8) -/

lemma stateUpdate_fg_of_const (rx ry x y p : ℚ) (prev : Sampler)
    (hprev : ∀ a b, prev a b = p) :
    stateUpdatePixel ⟨7/10, 1/4, 17/20, false, rx, ry, 6⟩
      (fun _ _ => 1) (fun _ _ => 0) prev x y = 7/10 + 3/10 * p := by
  norm_num [stateUpdatePixel, sampleBlurred, hprev, smoothstepQ, clampQ, mixQ]
  ring

/-- C8 (amended): on every render call that runs the state-update pass, the
write mask buffer is reallocated at the incoming frame resolution before
the pass writes it, and the pass consumes the read buffer's prior content
as history; the read buffer is NOT reallocated or cleared, so on a
resolution change the previous smoothed mask is retained (resampled via
normalized coordinates) rather than reset to the all-background state. -/
theorem maskBuffer_write_realloc_read_kept (s : RState)
    (frame bgContent : ℚ → ℚ → Vec4) (blurC : ℚ → ℚ → ℚ → ℚ → Vec4)
    (frameW frameH : ℕ) (opts : RenderOpts) (cat conf : Sampler) (selfie : Bool)
    (hrun : s.running = true) :
    ((render s frame bgContent blurC frameW frameH opts (some (cat, conf))
        selfie).state.stateTex (writeIdx s)).w = frameW ∧
    ((render s frame bgContent blurC frameW frameH opts (some (cat, conf))
        selfie).state.stateTex (writeIdx s)).h = frameH ∧
    ((render s frame bgContent blurC frameW frameH opts (some (cat, conf))
        selfie).state.stateTex (readIdx s)) = s.stateTex (readIdx s) ∧
    ((render s frame bgContent blurC frameW frameH opts (some (cat, conf))
        selfie).state.stateTex (writeIdx s)).data
      = fun x y =>
          stateUpdatePixel (stateUpdateCfg opts selfie frameW frameH) cat conf
            (s.stateTex (readIdx s)).data x y := by
  have hne : readIdx s ≠ writeIdx s := by
    have h : ∀ i : Fin 2, i ≠ i + 1 := by decide
    exact h s.currentStateIndex
  simp only [render, hrun, Bool.true_eq_false, if_false, readIdx, writeIdx] at hne ⊢
  exact ⟨by simp, by simp, by simp [Function.update_noteq hne], by simp⟩

/-- C8 witness: the buffer-lifecycle theorem applied to the fresh renderer
with a 4×4 frame and constant mask inputs. -/
theorem maskBuffer_write_realloc_read_kept_witness :
    ((render (initialRState 2 2) (fun _ _ _ => 1) (fun _ _ _ => 0) (fun _ _ _ _ _ => 0)
        4 4 ⟨7/10, 1/4, 17/20, none, 6/10, 0, 30, 6, 8, 14, 2/5, 3/5⟩
        (some (fun _ _ => 1, fun _ _ => 0)) false).state.stateTex
        (writeIdx (initialRState 2 2))).w = 4 ∧
    ((render (initialRState 2 2) (fun _ _ _ => 1) (fun _ _ _ => 0) (fun _ _ _ _ _ => 0)
        4 4 ⟨7/10, 1/4, 17/20, none, 6/10, 0, 30, 6, 8, 14, 2/5, 3/5⟩
        (some (fun _ _ => 1, fun _ _ => 0)) false).state.stateTex
        (writeIdx (initialRState 2 2))).h = 4 ∧
    ((render (initialRState 2 2) (fun _ _ _ => 1) (fun _ _ _ => 0) (fun _ _ _ _ _ => 0)
        4 4 ⟨7/10, 1/4, 17/20, none, 6/10, 0, 30, 6, 8, 14, 2/5, 3/5⟩
        (some (fun _ _ => 1, fun _ _ => 0)) false).state.stateTex
        (readIdx (initialRState 2 2)))
      = (initialRState 2 2).stateTex (readIdx (initialRState 2 2)) ∧
    ((render (initialRState 2 2) (fun _ _ _ => 1) (fun _ _ _ => 0) (fun _ _ _ _ _ => 0)
        4 4 ⟨7/10, 1/4, 17/20, none, 6/10, 0, 30, 6, 8, 14, 2/5, 3/5⟩
        (some (fun _ _ => 1, fun _ _ => 0)) false).state.stateTex
        (writeIdx (initialRState 2 2))).data
      = fun x y =>
          stateUpdatePixel
            (stateUpdateCfg ⟨7/10, 1/4, 17/20, none, 6/10, 0, 30, 6, 8, 14, 2/5, 3/5⟩
              false 4 4)
            (fun _ _ => 1) (fun _ _ => 0)
            ((initialRState 2 2).stateTex (readIdx (initialRState 2 2))).data x y :=
  maskBuffer_write_realloc_read_kept (initialRState 2 2) (fun _ _ _ => 1) (fun _ _ _ => 0)
    (fun _ _ _ _ _ => 0) 4 4 ⟨7/10, 1/4, 17/20, none, 6/10, 0, 30, 6, 8, 14, 2/5, 3/5⟩
    (fun _ _ => 1) (fun _ _ => 0) false rfl

/-- Render options matching the repository defaults in virtual-background
mode (bgBlur 0), with an all-foreground mask input. -/
def optsC8 : RenderOpts := ⟨7/10, 1/4, 17/20, none, 6/10, 0, 30, 6, 8, 14, 2/5, 3/5⟩

/-- State after one 4×4 effect render on the fresh renderer. -/
def rcState1 : RState :=
  (render (initialRState 4 4) (fun _ _ _ => 1) (fun _ _ _ => 0) (fun _ _ _ _ _ => 0)
    4 4 optsC8 (some (fun _ _ => 1, fun _ _ => 0)) false).state

/-- State after a further 8×8 effect render (a resolution change). -/
def rcState2 : RState :=
  (render rcState1 (fun _ _ _ => 1) (fun _ _ _ => 0) (fun _ _ _ _ _ => 0)
    8 8 optsC8 (some (fun _ _ => 1, fun _ _ => 0)) false).state

lemma rcState1_read_const :
    ∀ a b, (rcState1.stateTex rcState1.currentStateIndex).data a b = 7/10 := by
  intro a b
  simp only [rcState1, render, initialRState, optsC8, readIdx, writeIdx]
  norm_num [Function.update_same, stateUpdateCfg, initialMaskTex]
  rw [stateUpdate_fg_of_const _ _ _ _ 0 _ (fun _ _ => rfl)]
  norm_num

/-- C8 counterexample: after a 4×4 render committing mask value 0.7, a
render at the changed resolution 8×8 consumes a read buffer still
allocated at 4×4 and still holding 0.7 (not reset to the all-background
0), and writes 0.91 = 0.7 + 0.3 × 0.7 (history carried), where a reset
history would have produced 0.7. -/
theorem resolutionReset_claimC8_false :
    ((rcState1.stateTex (readIdx rcState1)).w = 4 ∧ (4 : ℕ) ≠ 8 ∧
      (rcState1.stateTex (readIdx rcState1)).data (1/2) (1/2) = 7/10 ∧
      (7/10 : ℚ) ≠ 0) ∧
    ((rcState2.stateTex (writeIdx rcState1)).data (1/2) (1/2) = 91/100 ∧
      (91/100 : ℚ) ≠ 7/10) := by
  refine ⟨⟨?_, by norm_num, rcState1_read_const (1/2) (1/2), by norm_num⟩, ⟨?_, by norm_num⟩⟩
  · simp only [rcState1, render, initialRState, optsC8, readIdx, writeIdx]
    norm_num [Function.update_same]
  · show (rcState2.stateTex (writeIdx rcState1)).data (1/2) (1/2) = 91/100
    simp only [rcState2, render, readIdx, writeIdx]
    have hrun : rcState1.running = true := by
      simp [rcState1, render, initialRState]
    simp only [hrun, Bool.true_eq_false, if_false]
    norm_num [Function.update_same, stateUpdateCfg, optsC8]
    rw [stateUpdate_fg_of_const _ _ _ _ (7/10) _ rcState1_read_const]
    norm_num

end VideoBlur
